import Mathlib

/-!
Shallow embedding of `src/garage/torch/algos/trpo.py` (class `TRPO`).

The file embeds the three members of the class:

* `TRPO.init` — the constructor `TRPO.__init__`: it builds the optimizer
  descriptor `(ConjugateGradientOptimizer, {'max_constraint_value': max_kl_step})`
  and forwards every other argument to the VPG base trainer's constructor.
  The base constructor itself is outside the excerpt, so the embedding
  returns the record of arguments it receives.
* `computeObjective` — `TRPO._compute_objective`: the surrogate objective
  `((new_ll - old_ll).exp()) * advantages`, elementwise over batches modelled
  as lists of reals.  The exponential is a parameter `rexp` so the definition
  stays computable; theorems that need its analytic facts instantiate it with
  `Real.exp`.
* `optimize` — `TRPO._optimize`: a single call to the configured optimizer's
  `step`, given a loss closure and a KL-constraint closure.  Its effect is
  modelled as the list of optimizer step calls it issues.

Autograd is modelled separately by forward-mode dual numbers
(`Dual`, `computeObjectiveGrad`): `torch.no_grad()` becomes `Dual.detach`,
which zeroes the gradient component.  Exception propagation is modelled by
`Except` (`computeObjectiveE`, `optimizeE`).
-/

namespace Garage

/-- Optimizer classes that can stand first in an optimizer descriptor tuple.
`ConjugateGradientOptimizer` is the one `TRPO.__init__` selects; the other
constructor stands for any different optimizer class of the framework. -/
inductive OptimizerClass where
  | ConjugateGradientOptimizer
  | OtherOptimizer (pyname : String)
deriving DecidableEq

/-- The keyword-argument dictionary of the descriptor built in `TRPO.__init__`.
In the source it is the one-key dict `{'max_constraint_value': max_kl_step}`. -/
structure CGKwargs where
  max_constraint_value : ℚ
deriving DecidableEq

/-- An optimizer descriptor: the `(class, kwargs)` pair that `TRPO.__init__`
builds and hands to the base trainer. -/
abbrev OptimizerDescriptor := OptimizerClass × CGKwargs

/-- Modelled from the spec: the VPG base trainer's constructor is not part of
this excerpt, so the embedding of `TRPO.__init__` returns the record of the
arguments that `super().__init__` receives (environment spec, policy, baseline,
optimizer descriptor, and the remaining configuration scalars and flags). -/
structure VPGArgs (E P B : Type) where
  env_spec : E
  policy : P
  baseline : B
  optimizer : OptimizerDescriptor
  max_path_length : ℕ
  num_train_per_epoch : ℕ
  discount : ℚ
  gae_lambda : ℚ
  center_adv : Bool
  positive_adv : Bool
  policy_ent_coeff : ℚ
  use_softplus_entropy : Bool
  stop_entropy_gradient : Bool
  entropy_method : String

/-- `TRPO.__init__`.  Default argument values are those of the Python
signature; real-valued defaults are exact rationals.  The body first builds
`optimizer = (ConjugateGradientOptimizer, {'max_constraint_value': max_kl_step})`
and then calls the base constructor with every other argument unchanged. -/
def TRPO.init {E P B : Type} (env_spec : E) (policy : P) (baseline : B)
    (max_path_length : ℕ := 100)
    (num_train_per_epoch : ℕ := 1)
    (discount : ℚ := 99/100)
    (gae_lambda : ℚ := 98/100)
    (center_adv : Bool := true)
    (positive_adv : Bool := false)
    (policy_ent_coeff : ℚ := 0)
    (max_kl_step : ℚ := 1/100)
    (use_softplus_entropy : Bool := false)
    (stop_entropy_gradient : Bool := false)
    (entropy_method : String := "no_entropy") : VPGArgs E P B :=
  let optimizer : OptimizerDescriptor :=
    (OptimizerClass.ConjugateGradientOptimizer,
     { max_constraint_value := max_kl_step })
  { env_spec := env_spec
    policy := policy
    baseline := baseline
    optimizer := optimizer
    max_path_length := max_path_length
    num_train_per_epoch := num_train_per_epoch
    discount := discount
    gae_lambda := gae_lambda
    center_adv := center_adv
    positive_adv := positive_adv
    policy_ent_coeff := policy_ent_coeff
    use_softplus_entropy := use_softplus_entropy
    stop_entropy_gradient := stop_entropy_gradient
    entropy_method := entropy_method }

/-- A policy as `_compute_objective` consumes it: only its batched action
log-likelihood `log_likelihood(obs, actions)` is used, returning one scalar
per batch element. -/
structure Policy (O A : Type) where
  log_likelihood : List O → List A → List ℝ

/-- The part of the TRPO object's state that `_compute_objective` reads:
`self.policy` (the new policy) and `self._old_policy`. -/
structure TRPOState (O A : Type) where
  policy : Policy O A
  old_policy : Policy O A

/-- A policy whose batched log-likelihood is a fixed list, ignoring the inputs;
used to build concrete instances. -/
def constPolicy {O A : Type} (lls : List ℝ) : Policy O A :=
  ⟨fun _ _ => lls⟩

/-- `TRPO._compute_objective(advantages, valids, obs, actions, rewards)`.
Tensors are lists of reals; elementwise tensor arithmetic is `List.zipWith`.
`rexp` stands for the scalar exponential applied by `.exp()`.  The
`torch.no_grad()` block only affects gradient tracking (see
`computeObjectiveGrad`), not the values computed here. -/
def computeObjective {O A : Type} (rexp : ℝ → ℝ) (st : TRPOState O A)
    (advantages : List ℝ) (valids : List ℕ) (obs : List O)
    (actions : List A) (rewards : List ℝ) : List ℝ :=
  let old_ll := st.old_policy.log_likelihood obs actions
  let new_ll := st.policy.log_likelihood obs actions
  let likelihood_ratio := List.zipWith (fun n o => rexp (n - o)) new_ll old_ll
  let surrogate := List.zipWith (fun r a => r * a) likelihood_ratio advantages
  surrogate

/-- One call to the configured optimizer's `step` operation, as `_optimize`
issues it: a loss-evaluation closure and a constraint-evaluation closure. -/
structure StepCall (L C : Type) where
  f_loss : Unit → L
  f_constraint : Unit → C

/-- The collaborators `_optimize` invokes through `self`:
`self.compute_loss(itr, paths, valids, obs, actions, rewards, baselines)`
and `self._compute_kl_constraint(obs)`.  Both live in the VPG base class,
outside this excerpt, so they are abstract functions here. -/
structure VPGCollab (Pth Ob Ac L C : Type) where
  compute_loss : ℕ → Pth → List ℕ → Ob → Ac → List ℝ → List ℝ → L
  compute_kl_constraint : Ob → C

/-- `TRPO._optimize(itr, paths, valids, obs, actions, rewards, baselines)`.
Its whole body is one statement, `self._optimizer.step(f_loss=…, f_constraint=…)`;
the embedding returns the list of step calls the body issues, each holding the
two closures exactly as the source builds them. -/
def optimize {Pth Ob Ac L C : Type} (self : VPGCollab Pth Ob Ac L C)
    (itr : ℕ) (paths : Pth) (valids : List ℕ) (obs : Ob) (actions : Ac)
    (rewards : List ℝ) (baselines : List ℝ) : List (StepCall L C) :=
  [{ f_loss := fun _ =>
       self.compute_loss itr paths valids obs actions rewards baselines
     f_constraint := fun _ => self.compute_kl_constraint obs }]

/-- A scalar as autograd tracks it, in forward mode: its value and its
gradient with respect to the new policy's (scalar) parameter. -/
structure Dual where
  val : ℝ
  grad : ℝ

/-- `torch.no_grad()`: the value is kept, gradient tracking is disabled. -/
def Dual.detach (d : Dual) : Dual := ⟨d.val, 0⟩

/-- Elementwise subtraction of tracked scalars. -/
def Dual.sub (a b : Dual) : Dual := ⟨a.val - b.val, a.grad - b.grad⟩

/-- Elementwise product of tracked scalars (product rule). -/
def Dual.mul (a b : Dual) : Dual := ⟨a.val * b.val, a.grad * b.val + a.val * b.grad⟩

/-- `.exp()` on a tracked scalar: since the derivative of the exponential is
itself, the gradient component is `rexp val * grad`. -/
def Dual.dexp (rexp : ℝ → ℝ) (a : Dual) : Dual := ⟨rexp a.val, rexp a.val * a.grad⟩

/-- `TRPO._compute_objective` under autograd, with the two policies' batched
log-likelihoods given as tracked scalars.  The `with torch.no_grad():` block
around `old_ll` becomes `Dual.detach` on each of its entries; the rest mirrors
`computeObjective` line by line through the dual-number operations. -/
def computeObjectiveGrad (rexp : ℝ → ℝ)
    (old_ll new_ll advantages : List Dual) : List Dual :=
  let old := old_ll.map Dual.detach
  let likelihood_ratio := List.zipWith (fun n o => Dual.dexp rexp (n.sub o)) new_ll old
  List.zipWith Dual.mul likelihood_ratio advantages

/-- A policy whose batched log-likelihood call can raise: the Python call
either returns a tensor or raises an exception `E`. -/
structure FalliblePolicy (O A E : Type) where
  log_likelihood : List O → List A → Except E (List ℝ)

/-- `TRPO._compute_objective` when the collaborator calls can raise.
Python's exception propagation is the `Except` monad: each statement runs in
order and the first raised exception aborts the body unchanged, since the
source contains no try/except of its own. -/
def computeObjectiveE {O A E : Type} (rexp : ℝ → ℝ)
    (old_policy other_policy : FalliblePolicy O A E)
    (advantages : List ℝ) (valids : List ℕ) (obs : List O)
    (actions : List A) (rewards : List ℝ) : Except E (List ℝ) := do
  let old_ll ← old_policy.log_likelihood obs actions
  let new_ll ← other_policy.log_likelihood obs actions
  let likelihood_ratio := List.zipWith (fun n o => rexp (n - o)) new_ll old_ll
  pure (List.zipWith (fun r a => r * a) likelihood_ratio advantages)

/-- `TRPO._optimize` when the optimizer's `step` can raise: the body is the
single `step` call, so the body's outcome is that call's outcome, unchanged. -/
def optimizeE {Pth Ob Ac L C E U : Type}
    (step : (Unit → L) → (Unit → C) → Except E U)
    (self : VPGCollab Pth Ob Ac L C)
    (itr : ℕ) (paths : Pth) (valids : List ℕ) (obs : Ob) (actions : Ac)
    (rewards : List ℝ) (baselines : List ℝ) : Except E U :=
  step
    (fun _ => self.compute_loss itr paths valids obs actions rewards baselines)
    (fun _ => self.compute_kl_constraint obs)

/-- C3: for every value of `max_kl_step` (and of every other constructor
argument), `TRPO.__init__` builds the optimizer descriptor selecting the
`ConjugateGradientOptimizer` class with `max_constraint_value` equal to exactly
that `max_kl_step`, and this descriptor is the `optimizer` argument handed to
the base trainer's constructor. -/
theorem trpo_init_optimizer_descriptor {E P B : Type}
    (env_spec : E) (policy : P) (baseline : B)
    (max_path_length num_train_per_epoch : ℕ)
    (discount gae_lambda policy_ent_coeff max_kl_step : ℚ)
    (center_adv positive_adv use_softplus_entropy stop_entropy_gradient : Bool)
    (entropy_method : String) :
    (TRPO.init env_spec policy baseline max_path_length num_train_per_epoch
        discount gae_lambda center_adv positive_adv policy_ent_coeff
        max_kl_step use_softplus_entropy stop_entropy_gradient
        entropy_method).optimizer =
      (OptimizerClass.ConjugateGradientOptimizer, CGKwargs.mk max_kl_step) :=
  rfl

/-- C9: constructing `TRPO` with no explicit optional arguments uses the
defaults `max_path_length=100`, `num_train_per_epoch=1`, `discount=0.99`,
`gae_lambda=0.98`, `center_adv=true`, `positive_adv=false`,
`policy_ent_coeff=0`, `max_kl_step=0.01` (visible as the descriptor's
constraint bound), `use_softplus_entropy=false`, `stop_entropy_gradient=false`
and `entropy_method='no_entropy'`. -/
theorem trpo_init_defaults {E P B : Type}
    (env_spec : E) (policy : P) (baseline : B) :
    TRPO.init env_spec policy baseline =
      { env_spec := env_spec
        policy := policy
        baseline := baseline
        optimizer := (OptimizerClass.ConjugateGradientOptimizer,
                      CGKwargs.mk (1/100))
        max_path_length := 100
        num_train_per_epoch := 1
        discount := 99/100
        gae_lambda := 98/100
        center_adv := true
        positive_adv := false
        policy_ent_coeff := 0
        use_softplus_entropy := false
        stop_entropy_gradient := false
        entropy_method := "no_entropy" } :=
  rfl

/-- C10: `TRPO.__init__` forwards each received parameter unchanged to the
base trainer's constructor; the only configuration it determines itself is the
optimizer descriptor, which is always the conjugate-gradient one built from
`max_kl_step`, so no constructor argument can select a different optimizer. -/
theorem trpo_init_forwards_arguments {E P B : Type}
    (env_spec : E) (policy : P) (baseline : B)
    (max_path_length num_train_per_epoch : ℕ)
    (discount gae_lambda policy_ent_coeff max_kl_step : ℚ)
    (center_adv positive_adv use_softplus_entropy stop_entropy_gradient : Bool)
    (entropy_method : String) :
    TRPO.init env_spec policy baseline max_path_length num_train_per_epoch
        discount gae_lambda center_adv positive_adv policy_ent_coeff
        max_kl_step use_softplus_entropy stop_entropy_gradient entropy_method =
      { env_spec := env_spec
        policy := policy
        baseline := baseline
        optimizer := (OptimizerClass.ConjugateGradientOptimizer,
                      CGKwargs.mk max_kl_step)
        max_path_length := max_path_length
        num_train_per_epoch := num_train_per_epoch
        discount := discount
        gae_lambda := gae_lambda
        center_adv := center_adv
        positive_adv := positive_adv
        policy_ent_coeff := policy_ent_coeff
        use_softplus_entropy := use_softplus_entropy
        stop_entropy_gradient := stop_entropy_gradient
        entropy_method := entropy_method } :=
  rfl

/-- C4: `_optimize` issues exactly one optimizer step call and performs no
update of its own: its trace is the single `step` call whose loss closure
evaluates `compute_loss` on the given `(itr, paths, valids, obs, actions,
rewards, baselines)` and whose constraint closure evaluates
`_compute_kl_constraint` on the given `obs`. -/
theorem optimize_single_step_call {Pth Ob Ac L C : Type}
    (self : VPGCollab Pth Ob Ac L C) (itr : ℕ) (paths : Pth)
    (valids : List ℕ) (obs : Ob) (actions : Ac)
    (rewards baselines : List ℝ) :
    (optimize self itr paths valids obs actions rewards baselines).length = 1 ∧
    (optimize self itr paths valids obs actions rewards baselines).map
        (fun c => (c.f_loss (), c.f_constraint ())) =
      [(self.compute_loss itr paths valids obs actions rewards baselines,
        self.compute_kl_constraint obs)] :=
  ⟨rfl, rfl⟩

/-- C5: for fixed advantages, observations, actions and rewards, the
objective returned by `_compute_objective` is invariant under any permutation
of the validity-length list. -/
theorem compute_objective_valids_perm_invariant {O A : Type}
    (rexp : ℝ → ℝ) (st : TRPOState O A) (advantages : List ℝ)
    (obs : List O) (actions : List A) (rewards : List ℝ)
    (valids₁ valids₂ : List ℕ) (hp : List.Perm valids₁ valids₂) :
    computeObjective rexp st advantages valids₁ obs actions rewards =
      computeObjective rexp st advantages valids₂ obs actions rewards :=
  rfl

/-- C5 witness: a concrete permutation of the validity lengths leaves the
objective unchanged. -/
theorem compute_objective_valids_perm_invariant_witness :
    List.Perm [1, 2] [2, 1] ∧
    computeObjective id (⟨constPolicy [0], constPolicy [0]⟩ : TRPOState Unit Unit)
        [5] [1, 2] [] [] [] =
      computeObjective id
        (⟨constPolicy [0], constPolicy [0]⟩ : TRPOState Unit Unit)
        [5] [2, 1] [] [] [] :=
  ⟨List.Perm.swap 2 1 [],
   compute_objective_valids_perm_invariant id
     (⟨constPolicy [0], constPolicy [0]⟩ : TRPOState Unit Unit)
     [5] [] [] [] [1, 2] [2, 1] (List.Perm.swap 2 1 [])⟩

/-- C8: the objective returned by `_compute_objective` does not depend on the
`rewards` argument or on the `valids` argument at all: any two values of each
give identical results. -/
theorem compute_objective_ignores_rewards_and_valids {O A : Type}
    (rexp : ℝ → ℝ) (st : TRPOState O A) (advantages : List ℝ)
    (obs : List O) (actions : List A)
    (valids₁ valids₂ : List ℕ) (rewards₁ rewards₂ : List ℝ) :
    computeObjective rexp st advantages valids₁ obs actions rewards₁ =
      computeObjective rexp st advantages valids₂ obs actions rewards₂ :=
  rfl

/-- C1: elementwise, `_compute_objective` returns the advantage multiplied by
the importance-sampling ratio `exp(new_ll - old_ll)` of the new over the old
policy's action log-likelihood on the same `(obs, actions)`. -/
theorem compute_objective_elementwise {O A : Type}
    (rexp : ℝ → ℝ) (st : TRPOState O A) (advantages : List ℝ)
    (valids : List ℕ) (obs : List O) (actions : List A) (rewards : List ℝ)
    (i : ℕ)
    (hn : i < (st.policy.log_likelihood obs actions).length)
    (ho : i < (st.old_policy.log_likelihood obs actions).length)
    (ha : i < advantages.length) :
    (computeObjective rexp st advantages valids obs actions rewards)[i]? =
      some (rexp ((st.policy.log_likelihood obs actions)[i] -
                  (st.old_policy.log_likelihood obs actions)[i]) *
            advantages[i]) := by
  have hlen :
      i < (computeObjective rexp st advantages valids obs actions
            rewards).length := by
    simp only [computeObjective, List.length_zipWith, lt_min_iff]
    exact ⟨⟨hn, ho⟩, ha⟩
  rw [List.getElem?_eq_getElem hlen]
  simp [computeObjective]

/-- C1 witness: at a one-element batch with new log-likelihood `3`, old
log-likelihood `1` and advantage `5`, the objective entry is
`rexp (3 - 1) * 5` (with `rexp = id`, the value `10`). -/
theorem compute_objective_elementwise_witness :
    0 < ((constPolicy [3] : Policy Unit Unit).log_likelihood [] []).length ∧
    (computeObjective id
        (⟨constPolicy [3], constPolicy [1]⟩ : TRPOState Unit Unit)
        [5] [] [] [] [])[0]? = some (id ((3 : ℝ) - 1) * 5) :=
  ⟨Nat.zero_lt_one,
   compute_objective_elementwise id
     (⟨constPolicy [3], constPolicy [1]⟩ : TRPOState Unit Unit)
     [5] [] [] [] [] 0 Nat.zero_lt_one Nat.zero_lt_one Nat.zero_lt_one⟩

/-- Multiplying elementwise by a long-enough list of ones is the identity. -/
theorem zipWith_replicate_one_mul :
    ∀ (l : List ℝ) (n : ℕ), l.length ≤ n →
      List.zipWith (fun r a => r * a) (List.replicate n (1 : ℝ)) l = l := by
  intro l
  induction l with
  | nil => intro n _; simp
  | cons x xs ih =>
      intro n hn
      cases n with
      | zero => simp at hn
      | succ m =>
          simp only [List.replicate_succ, List.zipWith_cons_cons, one_mul,
            List.cons.injEq, true_and]
          exact ih m (Nat.succ_le_succ_iff.mp hn)

/-- C2: when the new and the old policy assign identical log-likelihoods on
the batch (in particular when their parameters are identical), the likelihood
ratio is `1` at every action and `_compute_objective` returns the advantages
tensor exactly. -/
theorem compute_objective_identical_policies {O A : Type}
    (st : TRPOState O A) (advantages : List ℝ) (valids : List ℕ)
    (obs : List O) (actions : List A) (rewards : List ℝ)
    (heq : st.policy.log_likelihood obs actions =
           st.old_policy.log_likelihood obs actions)
    (hlen : advantages.length ≤
            (st.policy.log_likelihood obs actions).length) :
    List.zipWith (fun n o => Real.exp (n - o))
        (st.policy.log_likelihood obs actions)
        (st.old_policy.log_likelihood obs actions) =
      List.replicate (st.policy.log_likelihood obs actions).length 1 ∧
    computeObjective Real.exp st advantages valids obs actions rewards =
      advantages := by
  have hratio :
      List.zipWith (fun n o => Real.exp (n - o))
          (st.policy.log_likelihood obs actions)
          (st.old_policy.log_likelihood obs actions) =
        List.replicate (st.policy.log_likelihood obs actions).length 1 := by
    rw [← heq, List.zipWith_same]
    simp [List.eq_replicate_iff]
  refine ⟨hratio, ?_⟩
  show List.zipWith (fun r a => r * a)
      (List.zipWith (fun n o => Real.exp (n - o))
        (st.policy.log_likelihood obs actions)
        (st.old_policy.log_likelihood obs actions)) advantages = advantages
  rw [hratio]
  exact zipWith_replicate_one_mul advantages _ hlen

/-- C2 witness: with both policies reporting log-likelihoods `[0, 0]` on a
two-element batch, the objective equals the advantages `[2, 3]` exactly. -/
theorem compute_objective_identical_policies_witness :
    ((constPolicy [0, 0] : Policy Unit Unit).log_likelihood [] [] =
     (constPolicy [0, 0] : Policy Unit Unit).log_likelihood [] []) ∧
    computeObjective Real.exp
        (⟨constPolicy [0, 0], constPolicy [0, 0]⟩ : TRPOState Unit Unit)
        [2, 3] [] [] [] [] = [2, 3] :=
  ⟨rfl,
   (compute_objective_identical_policies
     (⟨constPolicy [0, 0], constPolicy [0, 0]⟩ : TRPOState Unit Unit)
     [2, 3] [] [] [] [] rfl (by simp [constPolicy])).2⟩

/-- Detaching a tracked scalar forgets everything but its value. -/
theorem map_detach_eq_of_map_val_eq (l₁ l₂ : List Dual)
    (h : l₁.map Dual.val = l₂.map Dual.val) :
    l₁.map Dual.detach = l₂.map Dual.detach := by
  have hmk : ∀ l : List Dual,
      l.map Dual.detach = (l.map Dual.val).map (fun v => Dual.mk v 0) := by
    intro l
    induction l with
    | nil => rfl
    | cons x xs ih => simp [Dual.detach, ih]
  rw [hmk, hmk, h]

/-- C6: the surrogate objective is differentiable with respect to the new
policy's parameter — as a function of a parameter `t` on which only the new
log-likelihood depends, it has the derivative given by the chain rule through
`exp` — and, because `old_ll` is computed under `torch.no_grad()` (modelled by
`Dual.detach`), the gradient the computation propagates is entirely
independent of any gradient attached to the old-policy log-likelihood. -/
theorem compute_objective_grad_flow :
    (∀ (f : ℝ → ℝ) (d θ oldv adv : ℝ) (valids : List ℕ),
        HasDerivAt f d θ →
        HasDerivAt (fun t =>
            (computeObjective Real.exp
              (⟨constPolicy [f t], constPolicy [oldv]⟩ : TRPOState Unit Unit)
              [adv] valids [] [] []).headI)
          (Real.exp (f θ - oldv) * d * adv) θ) ∧
    (∀ (rexp : ℝ → ℝ) (old₁ old₂ new_ll advantages : List Dual),
        old₁.map Dual.val = old₂.map Dual.val →
        computeObjectiveGrad rexp old₁ new_ll advantages =
          computeObjectiveGrad rexp old₂ new_ll advantages) := by
  constructor
  · intro f d θ oldv adv valids hf
    show HasDerivAt (fun t => Real.exp (f t - oldv) * adv)
      (Real.exp (f θ - oldv) * d * adv) θ
    exact ((hf.sub_const oldv).exp).mul_const adv
  · intro rexp old₁ old₂ new_ll advantages h
    unfold computeObjectiveGrad
    rw [map_detach_eq_of_map_val_eq old₁ old₂ h]

/-- C6 witness: with new log-likelihood `t`, old value `0` and advantage `2`,
the objective has derivative `exp (0 - 0) * 1 * 2` at `t = 0`; and changing
only the gradient carried by the old log-likelihood (`5` versus `7`) leaves
the tracked computation's output unchanged. -/
theorem compute_objective_grad_flow_witness :
    HasDerivAt (fun t : ℝ => t) 1 0 ∧
    HasDerivAt (fun t : ℝ =>
        (computeObjective Real.exp
          (⟨constPolicy [t], constPolicy [0]⟩ : TRPOState Unit Unit)
          [2] [] [] [] []).headI)
      (Real.exp ((0 : ℝ) - 0) * 1 * 2) 0 ∧
    ([Dual.mk 0 5].map Dual.val = [Dual.mk 0 7].map Dual.val) ∧
    computeObjectiveGrad id [Dual.mk 0 5] [Dual.mk 1 1] [Dual.mk 2 0] =
      computeObjectiveGrad id [Dual.mk 0 7] [Dual.mk 1 1] [Dual.mk 2 0] :=
  ⟨hasDerivAt_id 0,
   compute_objective_grad_flow.1 (fun t => t) 1 0 0 2 [] (hasDerivAt_id 0),
   rfl,
   compute_objective_grad_flow.2 id [Dual.mk 0 5] [Dual.mk 0 7]
     [Dual.mk 1 1] [Dual.mk 2 0] rfl⟩

/-- C7: neither `_compute_objective` nor `_optimize` handles errors itself.
In `_compute_objective`, a raise from the old policy's log-likelihood call
aborts the body with that error; a raise from the new policy's call does the
same; when both calls return, the body returns the pure objective on the
returned log-likelihood lists.  In `_optimize`, the body is the single
`step` call, so its outcome — error or value — is that call's outcome
unchanged, with the two closures built exactly from `compute_loss` and
`_compute_kl_constraint`. -/
theorem trpo_error_propagation {O A E Pth Ob Ac L C U : Type}
    (rexp : ℝ → ℝ) (old_p new_p : FalliblePolicy O A E)
    (advantages : List ℝ) (valids : List ℕ) (obs : List O)
    (actions : List A) (rewards : List ℝ)
    (step : (Unit → L) → (Unit → C) → Except E U)
    (self : VPGCollab Pth Ob Ac L C) (itr : ℕ) (paths : Pth)
    (valids' : List ℕ) (obs' : Ob) (actions' : Ac)
    (rewards' baselines' : List ℝ) :
    (∀ e, old_p.log_likelihood obs actions = Except.error e →
        computeObjectiveE rexp old_p new_p advantages valids obs actions
          rewards = Except.error e) ∧
    (∀ lo e, old_p.log_likelihood obs actions = Except.ok lo →
        new_p.log_likelihood obs actions = Except.error e →
        computeObjectiveE rexp old_p new_p advantages valids obs actions
          rewards = Except.error e) ∧
    (∀ lo ln, old_p.log_likelihood obs actions = Except.ok lo →
        new_p.log_likelihood obs actions = Except.ok ln →
        computeObjectiveE rexp old_p new_p advantages valids obs actions
          rewards =
          Except.ok (computeObjective rexp
            (⟨constPolicy ln, constPolicy lo⟩ : TRPOState O A)
            advantages valids obs actions rewards)) ∧
    optimizeE step self itr paths valids' obs' actions' rewards' baselines' =
      step
        (fun _ => self.compute_loss itr paths valids' obs' actions' rewards'
          baselines')
        (fun _ => self.compute_kl_constraint obs') := by
  refine ⟨?_, ?_, ?_, rfl⟩
  · intro e h
    simp only [computeObjectiveE, h]
    rfl
  · intro lo e h₁ h₂
    simp only [computeObjectiveE, h₁, h₂]
    rfl
  · intro lo ln h₁ h₂
    simp only [computeObjectiveE, h₁, h₂]
    rfl

/-- C7 witness: a policy whose log-likelihood call raises `"boom"` makes
`_compute_objective` propagate exactly that error. -/
theorem trpo_error_propagation_witness :
    ((⟨fun _ _ => Except.error "boom"⟩ :
        FalliblePolicy Unit Unit String).log_likelihood [] [] =
      Except.error "boom") ∧
    computeObjectiveE id
        (⟨fun _ _ => Except.error "boom"⟩ : FalliblePolicy Unit Unit String)
        (⟨fun _ _ => Except.ok [0]⟩ : FalliblePolicy Unit Unit String)
        [] [] [] [] [] = Except.error "boom" :=
  ⟨rfl,
   (trpo_error_propagation id
     (⟨fun _ _ => Except.error "boom"⟩ : FalliblePolicy Unit Unit String)
     (⟨fun _ _ => Except.ok [0]⟩ : FalliblePolicy Unit Unit String)
     [] [] [] [] []
     (fun fl _ => Except.ok (fl ()))
     (⟨fun _ _ _ _ _ _ _ => (0 : ℕ), fun _ => (0 : ℕ)⟩ :
       VPGCollab Unit Unit Unit ℕ ℕ)
     0 () [] () () [] []).1 "boom" rfl⟩

end Garage
